import Mathlib

/-!
Shallow embedding of the monitoring logic of `src/src/App.js`, a real-time
proctoring monitor.  JavaScript numbers are modelled as exact rationals.
The per-tick React state updates are modelled as explicit state passing in
the source's invocation order, and the perception collaborators (pose
landmarker, face detector, object detector) are modelled by the
observations they would return, which the embedded functions consume
exactly as the source does.
-/

/-- A normalized 2D point: the pose landmarker's nose-tip landmark
(landmark index 0) and the persisted `referenceNosePosition`. -/
structure NosePoint where
  x : ℚ
  y : ℚ
deriving DecidableEq

/-- The centering test of `detectPose` (App.js lines 257-263): the nose is
centered iff its normalized coordinates lie strictly within tolerance 0.08
of the frame center (0.5, 0.5) on both axes. -/
def noseCentered (nose : NosePoint) : Bool :=
  decide (|nose.x - 1/2| < 2/25) && decide (|nose.y - 1/2| < 2/25)

/-- The mutable local variables of `detectPose` that the per-pose
`forEach` body (App.js lines 254-278) reads and writes, together with the
`referenceNosePosition` entry of localStorage. -/
structure PoseLoopState where
  isFaceCentered : Bool
  referenceNose : Option NosePoint
  horizontalMovement : ℚ
  verticalMovement : ℚ
deriving DecidableEq

/-- One iteration of the `forEach` body of `detectPose` (App.js lines
254-278): recompute `isFaceCentered` for this pose's nose (overwriting the
previous value), refresh the stored reference when it is absent or this
pose is centered, and recompute the movement deltas against the (possibly
just refreshed) reference. -/
def poseStep (s : PoseLoopState) (nose : NosePoint) : PoseLoopState :=
  let isC := noseCentered nose
  let ref : NosePoint :=
    match s.referenceNose with
    | none => { x := nose.x, y := nose.y }
    | some r => if isC then { x := nose.x, y := nose.y } else r
  { isFaceCentered := isC
    referenceNose := some ref
    horizontalMovement := |nose.x - ref.x|
    verticalMovement := |nose.y - ref.y| }

/-- The observable outcome of one `detectPose` call (App.js lines 214-293):
the state values it commits plus the `isFaceCentered` value its returned
promise resolves to, and the final stored reference position. -/
structure PoseTickResult where
  faceDetected : Bool
  multiplePeopleDetected : Bool
  isFaceCentered : Bool
  horizontalMovement : ℚ
  verticalMovement : ℚ
  referenceNose : Option NosePoint
deriving DecidableEq

/-- `detectPose` (App.js lines 214-293) on the pose landmarker's result:
with zero poses all local flags keep their initial false/0 values and the
stored reference is untouched; otherwise `faceDetected` is set,
`multiplePeopleDetected` records whether more than one pose was seen, and
the `forEach` loop runs over every pose in order. -/
def detectPose (ref : Option NosePoint) (poses : List NosePoint) : PoseTickResult :=
  if poses.isEmpty then
    { faceDetected := false
      multiplePeopleDetected := false
      isFaceCentered := false
      horizontalMovement := 0
      verticalMovement := 0
      referenceNose := ref }
  else
    let final := poses.foldl poseStep ⟨false, ref, 0, 0⟩
    { faceDetected := true
      multiplePeopleDetected := decide (poses.length > 1)
      isFaceCentered := final.isFaceCentered
      horizontalMovement := final.horizontalMovement
      verticalMovement := final.verticalMovement
      referenceNose := final.referenceNose }

/-- A face detection as consumed by `verifyFace`: the bounding box of
`detection.box` and the optional recognition descriptor. -/
structure Face where
  boxX : ℚ
  boxY : ℚ
  boxW : ℚ
  boxH : ℚ
  descriptor : Option (List ℚ)
deriving DecidableEq

/-- Squared Euclidean distance between two descriptors; `faceapi`'s
`euclideanDistance` is the square root of this quantity. -/
def distSq (a b : List ℚ) : ℚ :=
  (List.zipWith (fun x y => (x - y) ^ 2) a b).sum

/-- The Manhattan distance from a face's bounding-box center to the frame
center, as computed inside the `reduce` of `verifyFace` (App.js lines
186-191). -/
def manhattanToCenter (vw vh : ℚ) (f : Face) : ℚ :=
  |f.boxX + f.boxW / 2 - vw / 2| + |f.boxY + f.boxH / 2 - vh / 2|

/-- One step of the `reduce` of `verifyFace` (App.js lines 186-192): keep
the face whose box center is strictly closer to the frame center, the
earlier face on ties. -/
def closerFace (vw vh : ℚ) (prev curr : Face) : Face :=
  if manhattanToCenter vw vh curr < manhattanToCenter vw vh prev then curr else prev

/-- The face `verifyFace` selects (App.js lines 184-193): the first
detection when there is at most one, otherwise the `reduce` over all
detections; `none` when the detection list is empty (in which case
`detections[0]` is `undefined`). -/
def selectFace (vw vh : ℚ) : List Face → Option Face
  | [] => none
  | f :: fs => some (fs.foldl (closerFace vw vh) f)

/-- The two React state cells that `verifyFace` writes. -/
structure VerifyState where
  faceDetected : Bool
  unauthorizedPerson : Bool
deriving DecidableEq

/-- `verifyFace` (App.js lines 150-212) as a state transformer.  With no
captured face it returns early.  With an empty detection list, reading
`.descriptor` of `undefined` throws, the `catch` swallows the error, and
no state is written.  When the selected face has no descriptor only
`faceDetected` is set to false.  Otherwise `faceDetected` is set and
`unauthorizedPerson` is set to whether the Euclidean distance between the
captured descriptor and the selected face's descriptor exceeds 0.6
(equivalently, whether its square exceeds 0.36). -/
def verifyFace (capturedFace : Option (List ℚ)) (vw vh : ℚ) (faces : List Face)
    (s : VerifyState) : VerifyState :=
  match capturedFace with
  | none => s
  | some base =>
    match selectFace vw vh faces with
    | none => s
    | some cf =>
      match cf.descriptor with
      | none => { s with faceDetected := false }
      | some d =>
        { faceDetected := true
          unauthorizedPerson := decide (distSq base d > 9/25) }

/-- The session state that `captureFace` may mutate: the captured
descriptor (`capturedFace`) and the capture flag (`faceCaptured`). -/
structure SessionState where
  capturedFace : Option (List ℚ)
  faceCaptured : Bool
deriving DecidableEq

/-- The inputs one `captureFace` call observes: the centering verdict
resolved by `detectPose`, the measured brightness, and the single-face
detection result (its descriptor, when a face was found). -/
structure CaptureInput where
  isCentered : Bool
  brightness : ℚ
  detection : Option (List ℚ)
deriving DecidableEq

/-- The distinct exit paths of `captureFace` (App.js lines 65-113), one
constructor per return point. -/
inductive CaptureResult where
  /-- Early return at line 66: a face was already captured. -/
  | alreadyCaptured
  /-- Return at lines 69-72: the head was not centered. -/
  | noCenteredFace
  /-- Return at lines 81-83: brightness below 50. -/
  | poorLightingLow
  /-- Return at lines 84-87: brightness above 200. -/
  | poorLightingHigh
  /-- Lines 93-101: a face was detected and its descriptor stored. -/
  | success
  /-- Lines 104-105: no face detected, brightness below 70. -/
  | noFaceLowLight
  /-- Lines 108-110: no face detected, lighting adequate. -/
  | noFaceDetected
deriving DecidableEq

/-- `captureFace` (App.js lines 65-113, the lighting-gated variant):
reject when already captured, then when not centered, then when brightness
is outside the band [50, 200]; otherwise store the detected descriptor and
set the capture flag on success, or report a detection failure leaving the
state unchanged. -/
def captureFace (s : SessionState) (inp : CaptureInput) : SessionState × CaptureResult :=
  if s.faceCaptured then (s, CaptureResult.alreadyCaptured)
  else if !inp.isCentered then (s, CaptureResult.noCenteredFace)
  else if inp.brightness < 50 then (s, CaptureResult.poorLightingLow)
  else if inp.brightness > 200 then (s, CaptureResult.poorLightingHigh)
  else
    match inp.detection with
    | some d => ({ capturedFace := some d, faceCaptured := true }, CaptureResult.success)
    | none =>
      (s, if inp.brightness < 70 then CaptureResult.noFaceLowLight
          else CaptureResult.noFaceDetected)

/-- The warning-relevant React state read by `getHighestPriorityWarning`. -/
structure WarningState where
  multiplePeopleDetected : Bool
  unauthorizedPerson : Bool
  faceDetected : Bool
  detectedNotAllowedObjects : List String
  horizontalMovement : ℚ
  verticalMovement : ℚ

/-- `getHighestPriorityWarning` (App.js lines 314-323): an if/else cascade
over the current warning state, first match wins. -/
def getHighestPriorityWarning (w : WarningState) : String :=
  if w.multiplePeopleDetected then "🚨 Critical Warning: More than one person detected!"
  else if w.unauthorizedPerson then "🚨 Warning: Unauthorized person detected!"
  else if !w.faceDetected then "⚠️ Warning: No face detected!"
  else if w.detectedNotAllowedObjects.length > 0 then
    "🚨 " ++ String.intercalate ", " w.detectedNotAllowedObjects ++ " detected! Please remove it."
  else if w.horizontalMovement > 1/50 ∨ w.verticalMovement > 1/50 then
    "⚠️ Head movement detected!"
  else ""

/-- The monitoring state one interval tick reads and writes. -/
structure TickState where
  faceDetected : Bool
  unauthorizedPerson : Bool
  multiplePeopleDetected : Bool
  horizontalMovement : ℚ
  verticalMovement : ℚ
  referenceNose : Option NosePoint
deriving DecidableEq

/-- Commit the state updates of one `detectPose` call (App.js lines
282-285) into the tick state. -/
def applyDetectPose (t : TickState) (poses : List NosePoint) : TickState :=
  let r := detectPose t.referenceNose poses
  { t with
    faceDetected := r.faceDetected
    multiplePeopleDetected := r.multiplePeopleDetected
    horizontalMovement := r.horizontalMovement
    verticalMovement := r.verticalMovement
    referenceNose := r.referenceNose }

/-- Commit the state updates of one `verifyFace` call into the tick
state. -/
def applyVerifyFace (t : TickState) (capturedFace : Option (List ℚ)) (vw vh : ℚ)
    (faces : List Face) : TickState :=
  let v := verifyFace capturedFace vw vh faces ⟨t.faceDetected, t.unauthorizedPerson⟩
  { t with
    faceDetected := v.faceDetected
    unauthorizedPerson := v.unauthorizedPerson }

/-- One interval tick after a face has been captured (App.js lines
326-336), in the source's invocation order: `detectPose()` first, then
`verifyFace()`. -/
def monitoringTick (t : TickState) (capturedFace : Option (List ℚ)) (poses : List NosePoint)
    (vw vh : ℚ) (faces : List Face) : TickState :=
  applyVerifyFace (applyDetectPose t poses) capturedFace vw vh faces

/-- Claim C1: the Alert Prioritizer is a total order evaluated top to
bottom with first match winning: multiple people, then unauthorized
person, then no face, then forbidden objects, then movement above 0.02 on
either axis, else the empty string; in particular `multiplePeopleDetected`
alone already forces the multi-person message. -/
theorem getHighestPriorityWarning_total_order (w : WarningState) :
    (w.multiplePeopleDetected = true →
      getHighestPriorityWarning w = "🚨 Critical Warning: More than one person detected!")
  ∧ (w.multiplePeopleDetected = false → w.unauthorizedPerson = true →
      getHighestPriorityWarning w = "🚨 Warning: Unauthorized person detected!")
  ∧ (w.multiplePeopleDetected = false → w.unauthorizedPerson = false →
      w.faceDetected = false →
      getHighestPriorityWarning w = "⚠️ Warning: No face detected!")
  ∧ (w.multiplePeopleDetected = false → w.unauthorizedPerson = false →
      w.faceDetected = true → w.detectedNotAllowedObjects ≠ [] →
      getHighestPriorityWarning w =
        "🚨 " ++ String.intercalate ", " w.detectedNotAllowedObjects ++
          " detected! Please remove it.")
  ∧ (w.multiplePeopleDetected = false → w.unauthorizedPerson = false →
      w.faceDetected = true → w.detectedNotAllowedObjects = [] →
      (w.horizontalMovement > 1/50 ∨ w.verticalMovement > 1/50) →
      getHighestPriorityWarning w = "⚠️ Head movement detected!")
  ∧ (w.multiplePeopleDetected = false → w.unauthorizedPerson = false →
      w.faceDetected = true → w.detectedNotAllowedObjects = [] →
      w.horizontalMovement ≤ 1/50 → w.verticalMovement ≤ 1/50 →
      getHighestPriorityWarning w = "") := by
  obtain ⟨mp, up, fd, objs, hm, vm⟩ := w
  refine ⟨?_, ?_, ?_, ?_, ?_, ?_⟩ <;> intros <;>
    simp_all [getHighestPriorityWarning, List.length_pos, not_or]

/-- Witness for C1 at a concrete state in which every other signal is also
raised. -/
theorem getHighestPriorityWarning_total_order_witness :
    (⟨true, true, false, ["cell phone"], 1, 1⟩ : WarningState).multiplePeopleDetected = true ∧
    getHighestPriorityWarning ⟨true, true, false, ["cell phone"], 1, 1⟩ =
      "🚨 Critical Warning: More than one person detected!" :=
  ⟨rfl, (getHighestPriorityWarning_total_order ⟨true, true, false, ["cell phone"], 1, 1⟩).1 rfl⟩

/-- The forEach loop's final `isFaceCentered` is the centering verdict of
the last pose processed, whatever the initial loop state. -/
theorem foldl_poseStep_isFaceCentered (poses : List NosePoint) (h : poses ≠ []) :
    ∀ s : PoseLoopState,
      (poses.foldl poseStep s).isFaceCentered = noseCentered (poses.getLast h) := by
  induction poses with
  | nil => exact absurd rfl h
  | cons p rest ih =>
    intro s
    cases rest with
    | nil => simp [poseStep, List.getLast]
    | cons q tl =>
      rw [List.foldl_cons]
      exact ih (List.cons_ne_nil q tl) (poseStep s p)

/-- If no remaining pose is centered, the stored reference survives the
rest of the loop unchanged. -/
theorem foldl_poseStep_ref_frozen (poses : List NosePoint) :
    ∀ (s : PoseLoopState) (r : NosePoint), s.referenceNose = some r →
      (∀ p ∈ poses, noseCentered p = false) →
      (poses.foldl poseStep s).referenceNose = some r := by
  induction poses with
  | nil => intro s r hr _; simpa using hr
  | cons p rest ih =>
    intro s r hr hall
    rw [List.foldl_cons]
    refine ih (poseStep s p) r ?_ (fun q hq => hall q (List.mem_cons_of_mem _ hq))
    have hp : noseCentered p = false := hall p (List.mem_cons_self p rest)
    simp [poseStep, hr, hp]

/-- Whenever some pose in the list is centered, the loop leaves the stored
reference at the position of a centered pose of the list. -/
theorem foldl_poseStep_ref_centered (poses : List NosePoint) :
    ∀ s : PoseLoopState, (∃ p ∈ poses, noseCentered p = true) →
      ∃ p ∈ poses, noseCentered p = true ∧
        (poses.foldl poseStep s).referenceNose = some p := by
  induction poses with
  | nil => rintro s ⟨p, hp, -⟩; exact absurd hp (List.not_mem_nil p)
  | cons p rest ih =>
    intro s hex
    by_cases hrest : ∃ q ∈ rest, noseCentered q = true
    · obtain ⟨q, hq, hcq, href⟩ := ih (poseStep s p) hrest
      exact ⟨q, List.mem_cons_of_mem _ hq, hcq, by rw [List.foldl_cons]; exact href⟩
    · have hp : noseCentered p = true := by
        obtain ⟨q, hq, hcq⟩ := hex
        rcases List.mem_cons.mp hq with h | h
        · exact h ▸ hcq
        · exact absurd ⟨q, h, hcq⟩ hrest
      have hall : ∀ q ∈ rest, noseCentered q = false := by
        intro q hq
        by_contra hne
        exact hrest ⟨q, hq, by revert hne; cases noseCentered q <;> simp⟩
      have hstep : (poseStep s p).referenceNose = some p := by
        cases hsr : s.referenceNose <;> simp [poseStep, hsr, hp]
      refine ⟨p, List.mem_cons_self p rest, hp, ?_⟩
      rw [List.foldl_cons]
      exact foldl_poseStep_ref_frozen rest (poseStep s p) p hstep hall

/-- Counterexample to claim C2: the first of two detected poses is exactly
centered, yet `detectPose` reports `isFaceCentered = false`, because the
forEach body overwrites the flag with each pose's verdict and the second
pose is far off center. -/
theorem detectPose_any_pose_centered_counterexample :
    noseCentered ⟨1/2, 1/2⟩ = true ∧
    (detectPose none [⟨1/2, 1/2⟩, ⟨9/10, 9/10⟩]).isFaceCentered = false := by
  constructor
  · simp [noseCentered]
  · norm_num [detectPose, poseStep, noseCentered, abs]

/-- Claim C2 (amended): with at least one detected pose, the tick's
`isFaceCentered` equals the centering verdict of the LAST pose in the
sequence (each loop iteration overwrites the flag), not of an arbitrary
centered pose; the reference-refresh half of the claim does hold: whenever
any pose is centered, the stored reference ends the tick at the position
of a centered pose of the sequence. -/
theorem detectPose_centering_amended (ref : Option NosePoint) (poses : List NosePoint)
    (h : poses ≠ []) :
    (detectPose ref poses).isFaceCentered = noseCentered (poses.getLast h)
  ∧ ((∃ p ∈ poses, noseCentered p = true) →
      ∃ p ∈ poses, noseCentered p = true ∧
        (detectPose ref poses).referenceNose = some p) := by
  cases poses with
  | nil => exact absurd rfl h
  | cons p rest =>
    constructor
    · show (List.foldl poseStep ⟨false, ref, 0, 0⟩ (p :: rest)).isFaceCentered = _
      exact foldl_poseStep_isFaceCentered (p :: rest) h ⟨false, ref, 0, 0⟩
    · intro hex
      obtain ⟨q, hq, hcq, href⟩ := foldl_poseStep_ref_centered (p :: rest) ⟨false, ref, 0, 0⟩ hex
      exact ⟨q, hq, hcq, href⟩

/-- Witness for the amended C2 at a single centered pose. -/
theorem detectPose_centering_amended_witness :
    ([(⟨1/2, 1/2⟩ : NosePoint)] ≠ ([] : List NosePoint)) ∧
    ((detectPose none [(⟨1/2, 1/2⟩ : NosePoint)]).isFaceCentered =
        noseCentered ([(⟨1/2, 1/2⟩ : NosePoint)].getLast (by simp)) ∧
      ((∃ p ∈ [(⟨1/2, 1/2⟩ : NosePoint)], noseCentered p = true) →
        ∃ p ∈ [(⟨1/2, 1/2⟩ : NosePoint)], noseCentered p = true ∧
          (detectPose none [(⟨1/2, 1/2⟩ : NosePoint)]).referenceNose = some p)) :=
  ⟨by simp, detectPose_centering_amended none [⟨1/2, 1/2⟩] (by simp)⟩

/-- Claim C3: the centering predicate holds iff both normalized
coordinates lie strictly within 0.08 of 0.5; a nose exactly at the
tolerance boundary on an axis is not centered. -/
theorem noseCentered_characterization (x y : ℚ) :
    (noseCentered ⟨x, y⟩ = true ↔ |x - 1/2| < 2/25 ∧ |y - 1/2| < 2/25)
  ∧ noseCentered ⟨1/2 + 2/25, 1/2⟩ = false := by
  constructor
  · simp [noseCentered]
  · simp [noseCentered, abs]

/-- Witness for C3 at the frame center. -/
theorem noseCentered_characterization_witness :
    ((noseCentered ⟨1/2, 1/2⟩ = true ↔
        |(1:ℚ)/2 - 1/2| < 2/25 ∧ |(1:ℚ)/2 - 1/2| < 2/25)
      ∧ noseCentered ⟨1/2 + 2/25, 1/2⟩ = false) :=
  noseCentered_characterization (1/2) (1/2)

/-- Inversion of a successful capture: success happens only when a
detection was present, and it stores exactly that descriptor and raises
the capture flag. -/
theorem captureFace_success_inv (s : SessionState) (inp : CaptureInput)
    (hsucc : (captureFace s inp).2 = CaptureResult.success) :
    ∃ d, inp.detection = some d ∧
      captureFace s inp = (⟨some d, true⟩, CaptureResult.success) := by
  unfold captureFace at hsucc ⊢
  split_ifs at hsucc ⊢ <;> try simp_all
  all_goals (cases hd : inp.detection <;> simp_all)

/-- Once the capture flag is set, `captureFace` returns at its first line
and changes nothing. -/
theorem captureFace_already (s : SessionState) (inp : CaptureInput)
    (h : s.faceCaptured = true) :
    captureFace s inp = (s, CaptureResult.alreadyCaptured) := by
  simp [captureFace, h]

/-- Claim C4: after a successful capture the flag is set and every
subsequent call is rejected with AlreadyCaptured, leaving the state
(including the stored descriptor) unchanged. -/
theorem captureFace_idempotent (s : SessionState) (inp inp' : CaptureInput)
    (hsucc : (captureFace s inp).2 = CaptureResult.success) :
    (captureFace s inp).1.faceCaptured = true ∧
    captureFace (captureFace s inp).1 inp' =
      ((captureFace s inp).1, CaptureResult.alreadyCaptured) := by
  obtain ⟨d, -, heq⟩ := captureFace_success_inv s inp hsucc
  have hflag : (captureFace s inp).1.faceCaptured = true := by rw [heq]
  exact ⟨hflag, captureFace_already _ inp' hflag⟩

/-- Witness for C4: a concrete successful capture followed by a rejected
second attempt. -/
theorem captureFace_idempotent_witness :
    (captureFace ⟨none, false⟩ ⟨true, 100, some [1]⟩).2 = CaptureResult.success ∧
    ((captureFace ⟨none, false⟩ ⟨true, 100, some [1]⟩).1.faceCaptured = true ∧
      captureFace (captureFace ⟨none, false⟩ ⟨true, 100, some [1]⟩).1 ⟨true, 100, some [2]⟩ =
        ((captureFace ⟨none, false⟩ ⟨true, 100, some [1]⟩).1, CaptureResult.alreadyCaptured)) := by
  have hs : (captureFace (⟨none, false⟩ : SessionState)
      (⟨true, 100, some [1]⟩ : CaptureInput)).2 = CaptureResult.success := by
    norm_num [captureFace]
  exact ⟨hs, captureFace_idempotent ⟨none, false⟩ ⟨true, 100, some [1]⟩ ⟨true, 100, some [2]⟩ hs⟩

/-- Claim C5: a capture attempted before any success, while the head is
not centered, fails at the centering gate and mutates nothing. -/
theorem captureFace_not_centered (s : SessionState) (inp : CaptureInput)
    (h1 : s.faceCaptured = false) (h2 : inp.isCentered = false) :
    captureFace s inp = (s, CaptureResult.noCenteredFace) := by
  simp [captureFace, h1, h2]

/-- Witness for C5. -/
theorem captureFace_not_centered_witness :
    ((⟨none, false⟩ : SessionState).faceCaptured = false ∧
      (⟨false, 100, some [1]⟩ : CaptureInput).isCentered = false) ∧
    captureFace ⟨none, false⟩ ⟨false, 100, some [1]⟩ =
      (⟨none, false⟩, CaptureResult.noCenteredFace) :=
  ⟨⟨rfl, rfl⟩, captureFace_not_centered ⟨none, false⟩ ⟨false, 100, some [1]⟩ rfl rfl⟩

/-- Claim C6: with the earlier gates passed, brightness below 50 or above
200 fails with the corresponding poor-lighting result and stores nothing;
brightness inside [50, 200] proceeds to face detection, and a successful
capture can only happen with brightness inside the band. -/
theorem captureFace_lighting_gate (s : SessionState) (inp : CaptureInput) (d : List ℚ)
    (h1 : s.faceCaptured = false) (h2 : inp.isCentered = true) :
    (inp.brightness < 50 → captureFace s inp = (s, CaptureResult.poorLightingLow))
  ∧ (inp.brightness > 200 → captureFace s inp = (s, CaptureResult.poorLightingHigh))
  ∧ (50 ≤ inp.brightness → inp.brightness ≤ 200 → inp.detection = some d →
      captureFace s inp = (⟨some d, true⟩, CaptureResult.success))
  ∧ ((captureFace s inp).2 = CaptureResult.success →
      50 ≤ inp.brightness ∧ inp.brightness ≤ 200) := by
  refine ⟨?_, ?_, ?_, ?_⟩
  · intro h
    simp [captureFace, h1, h2, h]
  · intro h
    have hn : ¬ inp.brightness < 50 := by linarith
    simp [captureFace, h1, h2, hn, h]
  · intro h50 h200 hd
    have hn1 : ¬ inp.brightness < 50 := not_lt.mpr h50
    have hn2 : ¬ inp.brightness > 200 := not_lt.mpr h200
    simp [captureFace, h1, h2, hn1, hn2, hd]
  · intro hs
    constructor
    · by_contra hb
      push_neg at hb
      simp [captureFace, h1, h2, hb] at hs
    · by_contra hb
      push_neg at hb
      have hn : ¬ inp.brightness < 50 := by linarith
      simp [captureFace, h1, h2, hn, hb] at hs

/-- Witness for C6 at a concrete low-lighting attempt. -/
theorem captureFace_lighting_gate_witness :
    ((⟨none, false⟩ : SessionState).faceCaptured = false ∧
      (⟨true, 30, some [1]⟩ : CaptureInput).isCentered = true ∧
      (⟨true, 30, some [1]⟩ : CaptureInput).brightness < 50) ∧
    captureFace ⟨none, false⟩ ⟨true, 30, some [1]⟩ =
      (⟨none, false⟩, CaptureResult.poorLightingLow) :=
  ⟨⟨rfl, rfl, by norm_num⟩,
    (captureFace_lighting_gate ⟨none, false⟩ ⟨true, 30, some [1]⟩ [1] rfl rfl).1 (by norm_num)⟩

/-- A squared Euclidean distance is non-negative. -/
theorem distSq_nonneg (a : List ℚ) : ∀ b : List ℚ, 0 ≤ distSq a b := by
  induction a with
  | nil => intro b; simp [distSq]
  | cons x xs ih =>
    intro b
    cases b with
    | nil => simp [distSq]
    | cons y ys =>
      have h : (0:ℚ) ≤ distSq xs ys := ih ys
      have hsq : (0:ℚ) ≤ (x - y) ^ 2 := sq_nonneg _
      have hd : distSq (x :: xs) (y :: ys) = (x - y) ^ 2 + distSq xs ys := by
        simp [distSq]
      rw [hd]
      linarith

/-- Claim C7: verification flags `unauthorizedPerson` iff the Euclidean
distance between the captured descriptor and the selected face's
descriptor strictly exceeds 0.6; a distance of exactly 0.6 is not
flagged, a distance of 0.61 is. -/
theorem verifyFace_distance_threshold (base d : List ℚ) (vw vh : ℚ) (faces : List Face)
    (g : Face) (s : VerifyState)
    (hsel : selectFace vw vh faces = some g) (hd : g.descriptor = some d) :
    ((verifyFace (some base) vw vh faces s).unauthorizedPerson = true ↔
      Real.sqrt ((distSq base d : ℚ) : ℝ) > 3/5)
  ∧ (verifyFace (some [(3:ℚ)/5]) 1 1 [⟨0, 0, 0, 0, some [0]⟩]
      ⟨false, false⟩).unauthorizedPerson = false
  ∧ (verifyFace (some [(61:ℚ)/100]) 1 1 [⟨0, 0, 0, 0, some [0]⟩]
      ⟨false, false⟩).unauthorizedPerson = true := by
  refine ⟨?_, ?_, ?_⟩
  · simp only [verifyFace, hsel, hd]
    rw [decide_eq_true_eq, gt_iff_lt, gt_iff_lt,
        Real.lt_sqrt (by norm_num : (0:ℝ) ≤ 3/5)]
    rw [show ((3:ℝ)/5) ^ 2 = ((9/25 : ℚ) : ℝ) by norm_num]
    exact Rat.cast_lt.symm
  · norm_num [verifyFace, selectFace, distSq]
  · norm_num [verifyFace, selectFace, distSq]

/-- Witness for C7 at a single detected face whose descriptor is at
distance 1 from the captured one. -/
theorem verifyFace_distance_threshold_witness :
    (selectFace 1 1 [(⟨0, 0, 0, 0, some [1]⟩ : Face)] = some ⟨0, 0, 0, 0, some [1]⟩ ∧
      (⟨0, 0, 0, 0, some [1]⟩ : Face).descriptor = some [1]) ∧
    (((verifyFace (some [0]) 1 1 [⟨0, 0, 0, 0, some [1]⟩]
        ⟨false, false⟩).unauthorizedPerson = true ↔
          Real.sqrt ((distSq [0] [1] : ℚ) : ℝ) > 3/5)
    ∧ (verifyFace (some [(3:ℚ)/5]) 1 1 [⟨0, 0, 0, 0, some [0]⟩]
        ⟨false, false⟩).unauthorizedPerson = false
    ∧ (verifyFace (some [(61:ℚ)/100]) 1 1 [⟨0, 0, 0, 0, some [0]⟩]
        ⟨false, false⟩).unauthorizedPerson = true) :=
  ⟨⟨rfl, rfl⟩,
    verifyFace_distance_threshold [0] [1] 1 1 [⟨0, 0, 0, 0, some [1]⟩]
      ⟨0, 0, 0, 0, some [1]⟩ ⟨false, false⟩ rfl rfl⟩

/-- The `reduce` of `verifyFace` returns one of the detections. -/
theorem foldl_closerFace_mem (vw vh : ℚ) : ∀ (fs : List Face) (f : Face),
    fs.foldl (closerFace vw vh) f ∈ f :: fs := by
  intro fs
  induction fs with
  | nil => intro f; simp
  | cons c rest ih =>
    intro f
    rw [List.foldl_cons]
    have hcf : closerFace vw vh f c = f ∨ closerFace vw vh f c = c := by
      unfold closerFace
      by_cases hc : manhattanToCenter vw vh c < manhattanToCenter vw vh f
      · rw [if_pos hc]; exact Or.inr rfl
      · rw [if_neg hc]; exact Or.inl rfl
    rcases List.mem_cons.mp (ih (closerFace vw vh f c)) with h1 | h2
    · rcases hcf with h3 | h3
      · rw [h1, h3]; exact List.mem_cons_self _ _
      · rw [h1, h3]; exact List.mem_cons_of_mem _ (List.mem_cons_self _ _)
    · exact List.mem_cons_of_mem _ (List.mem_cons_of_mem _ h2)

/-- The `reduce` of `verifyFace` returns a face at least as close to the
frame center as the accumulator and as every detection in the list. -/
theorem foldl_closerFace_min (vw vh : ℚ) : ∀ (fs : List Face) (f : Face),
    manhattanToCenter vw vh (fs.foldl (closerFace vw vh) f) ≤ manhattanToCenter vw vh f ∧
    ∀ g ∈ fs,
      manhattanToCenter vw vh (fs.foldl (closerFace vw vh) f) ≤ manhattanToCenter vw vh g := by
  intro fs
  induction fs with
  | nil => intro f; exact ⟨le_refl _, by simp⟩
  | cons c rest ih =>
    intro f
    rw [List.foldl_cons]
    obtain ⟨h1, h2⟩ := ih (closerFace vw vh f c)
    have hf : manhattanToCenter vw vh (closerFace vw vh f c) ≤ manhattanToCenter vw vh f ∧
        manhattanToCenter vw vh (closerFace vw vh f c) ≤ manhattanToCenter vw vh c := by
      unfold closerFace
      by_cases hc : manhattanToCenter vw vh c < manhattanToCenter vw vh f
      · rw [if_pos hc]
        exact ⟨le_of_lt hc, le_refl _⟩
      · rw [if_neg hc]
        exact ⟨le_refl _, le_of_not_lt hc⟩
    refine ⟨le_trans h1 hf.1, ?_⟩
    intro g hg
    rcases List.mem_cons.mp hg with rfl | hg'
    · exact le_trans h1 hf.2
    · exact h2 g hg'

/-- Claim C8: on every non-empty frame, verification selects a detected
face whose bounding-box center has minimal Manhattan distance to the
frame center; in particular, with two faces at distances 0.1 and 0.3 the
0.1 face is selected in either listing order. -/
theorem selectFace_closest (vw vh : ℚ) (f : Face) (fs : List Face) :
    (∃ g, selectFace vw vh (f :: fs) = some g ∧ g ∈ f :: fs ∧
      ∀ f' ∈ f :: fs, manhattanToCenter vw vh g ≤ manhattanToCenter vw vh f')
  ∧ selectFace 1 1 [⟨3/5, 1/2, 0, 0, none⟩, ⟨4/5, 1/2, 0, 0, none⟩] =
      some ⟨3/5, 1/2, 0, 0, none⟩
  ∧ selectFace 1 1 [⟨4/5, 1/2, 0, 0, none⟩, ⟨3/5, 1/2, 0, 0, none⟩] =
      some ⟨3/5, 1/2, 0, 0, none⟩ := by
  refine ⟨⟨fs.foldl (closerFace vw vh) f, rfl, foldl_closerFace_mem vw vh fs f, ?_⟩, ?_, ?_⟩
  · intro f' hf'
    obtain ⟨h1, h2⟩ := foldl_closerFace_min vw vh fs f
    rcases List.mem_cons.mp hf' with rfl | hg
    · exact h1
    · exact h2 f' hg
  · norm_num [selectFace, closerFace, manhattanToCenter, abs]
  · norm_num [selectFace, closerFace, manhattanToCenter, abs]

/-- Witness for C8 on a single-face frame. -/
theorem selectFace_closest_witness :
    (∃ g, selectFace 1 1 [(⟨3/5, 1/2, 0, 0, none⟩ : Face)] = some g ∧
      g ∈ [(⟨3/5, 1/2, 0, 0, none⟩ : Face)] ∧
      ∀ f' ∈ [(⟨3/5, 1/2, 0, 0, none⟩ : Face)],
        manhattanToCenter 1 1 g ≤ manhattanToCenter 1 1 f')
  ∧ selectFace 1 1 [⟨3/5, 1/2, 0, 0, none⟩, ⟨4/5, 1/2, 0, 0, none⟩] =
      some ⟨3/5, 1/2, 0, 0, none⟩
  ∧ selectFace 1 1 [⟨4/5, 1/2, 0, 0, none⟩, ⟨3/5, 1/2, 0, 0, none⟩] =
      some ⟨3/5, 1/2, 0, 0, none⟩ :=
  selectFace_closest 1 1 ⟨3/5, 1/2, 0, 0, none⟩ []

/-- Counterexample to claim C9: one detected face with no usable
descriptor, after a tick that had flagged an unauthorized person:
`verifyFace` sets `faceDetected` to false but leaves `unauthorizedPerson`
at its stale true value instead of false for this tick. -/
theorem verifyFace_no_descriptor_counterexample :
    (⟨0, 0, 0, 0, none⟩ : Face).descriptor = none ∧
    verifyFace (some [0]) 1 1 [⟨0, 0, 0, 0, none⟩] ⟨true, true⟩ = ⟨false, true⟩ :=
  ⟨rfl, rfl⟩

/-- Claim C9 (amended): when the selected face has no usable descriptor,
`verifyFace` sets `faceDetected` to false and skips the distance
computation, but `unauthorizedPerson` keeps whatever value the previous
tick left in it (it is not reset to false); and when there are zero faces
the face selection throws, the error is swallowed, and no state at all is
written — not even `faceDetected`. -/
theorem verifyFace_no_descriptor_amended (base : List ℚ) (vw vh : ℚ) (faces : List Face)
    (g : Face) (s : VerifyState)
    (hsel : selectFace vw vh faces = some g) (hd : g.descriptor = none) :
    verifyFace (some base) vw vh faces s = ⟨false, s.unauthorizedPerson⟩
  ∧ verifyFace (some base) vw vh [] s = s := by
  obtain ⟨fd, up⟩ := s
  constructor
  · simp [verifyFace, hsel, hd]
  · rfl

/-- Witness for the amended C9. -/
theorem verifyFace_no_descriptor_amended_witness :
    (selectFace 1 1 [(⟨0, 0, 0, 0, none⟩ : Face)] = some ⟨0, 0, 0, 0, none⟩ ∧
      (⟨0, 0, 0, 0, none⟩ : Face).descriptor = none) ∧
    (verifyFace (some [1]) 1 1 [⟨0, 0, 0, 0, none⟩] ⟨true, false⟩ = ⟨false, false⟩ ∧
      verifyFace (some [1]) 1 1 [] ⟨true, false⟩ = ⟨true, false⟩) :=
  ⟨⟨rfl, rfl⟩,
    verifyFace_no_descriptor_amended [1] 1 1 [⟨0, 0, 0, 0, none⟩] ⟨0, 0, 0, 0, none⟩
      ⟨true, false⟩ rfl rfl⟩

/-- Counterexample to claim C10: a tick with one pose and one
descriptor-less face (and a captured baseline).  Identity verification
runs after the pose evaluation inside the tick, so the tick ends with
`faceDetected = false` even though the pose detector returned a pose: the
pose-derived value does not overwrite verification's. -/
theorem monitoringTick_overwrite_counterexample :
    ([(⟨1/2, 1/2⟩ : NosePoint)].length ≥ 1) ∧
    (monitoringTick ⟨false, false, false, 0, 0, none⟩ (some [0])
      [⟨1/2, 1/2⟩] 1 1 [⟨0, 0, 0, 0, none⟩]).faceDetected = false := by
  constructor
  · norm_num
  · rfl

/-- Claim C10 (amended): the pose evaluation sets `faceDetected` to true
whenever at least one pose is detected, regardless of faces or
descriptors; when verification has no captured baseline or sees zero
faces it writes nothing, so the pose-derived value decides the no-face
warning there; but verification runs after the pose evaluation within the
tick, so when it selects a face without a usable descriptor it overwrites
`faceDetected` to false. -/
theorem monitoringTick_faceDetected_amended (t : TickState) (base : List ℚ)
    (poses : List NosePoint) (vw vh : ℚ) (faces : List Face) (g : Face)
    (h : poses ≠ []) :
    (detectPose t.referenceNose poses).faceDetected = true
  ∧ (monitoringTick t (some base) poses vw vh []).faceDetected = true
  ∧ (monitoringTick t none poses vw vh faces).faceDetected = true
  ∧ (selectFace vw vh faces = some g → g.descriptor = none →
      (monitoringTick t (some base) poses vw vh faces).faceDetected = false) := by
  cases poses with
  | nil => exact absurd rfl h
  | cons p ps =>
    refine ⟨rfl, rfl, rfl, ?_⟩
    intro hsel hd
    simp [monitoringTick, applyVerifyFace, applyDetectPose, verifyFace, hsel, hd]

/-- Witness for the amended C10. -/
theorem monitoringTick_faceDetected_amended_witness :
    ([(⟨1/4, 1/4⟩ : NosePoint)] ≠ ([] : List NosePoint)) ∧
    ((detectPose (⟨false, false, false, 0, 0, none⟩ : TickState).referenceNose
        [⟨1/4, 1/4⟩]).faceDetected = true
    ∧ (monitoringTick ⟨false, false, false, 0, 0, none⟩ (some [0])
        [⟨1/4, 1/4⟩] 1 1 []).faceDetected = true
    ∧ (monitoringTick ⟨false, false, false, 0, 0, none⟩ none
        [⟨1/4, 1/4⟩] 1 1 [⟨1/8, 0, 0, 0, none⟩]).faceDetected = true
    ∧ (selectFace 1 1 [(⟨1/8, 0, 0, 0, none⟩ : Face)] = some ⟨1/8, 0, 0, 0, none⟩ →
        (⟨1/8, 0, 0, 0, none⟩ : Face).descriptor = none →
        (monitoringTick ⟨false, false, false, 0, 0, none⟩ (some [0])
          [⟨1/4, 1/4⟩] 1 1 [⟨1/8, 0, 0, 0, none⟩]).faceDetected = false)) :=
  ⟨by simp,
    monitoringTick_faceDetected_amended ⟨false, false, false, 0, 0, none⟩ [0]
      [⟨1/4, 1/4⟩] 1 1 [⟨1/8, 0, 0, 0, none⟩] ⟨1/8, 0, 0, 0, none⟩ (by simp)⟩
